import Mathlib

/-
Shallow embedding of the rpa_netflix repository (src/main.py, src/sub/error_handler.py,
src/sub/database.py, src/sub/driver_web.py) used to settle the frozen claims about its
specification.  Python exceptions are modelled with an explicit error type, stateful
objects with explicit state passing, and the external world (HTTP probes, the Selenium
driver, the SQLite store, the mailbox, the clock and the random source) with explicit
input parameters.  Logging is observationally irrelevant to every claim and is omitted.
-/

namespace RpaNetflix

/-- Error kinds of the Python program: the RPAError hierarchy of error_handler.py
together with the builtin exception kinds the retry decorator names and a catch-all
for any other exception.  The string argument models the exception message str(e). -/
inductive PyError : Type where
  | retryableError : PyError
  | connectionError : PyError
  | timeoutError : PyError
  | unboundLocalError : PyError
  | emailConnectionError : String → PyError
  | webAutomationError : String → PyError
  | databaseError : String → PyError
  | configurationError : String → PyError
  | otherError : String → PyError
deriving DecidableEq

/-- Message text str(e) of an exception, as used when a record stores the error detail. -/
def errStr : PyError → String
  | PyError.retryableError => "retryable error"
  | PyError.connectionError => "connection error"
  | PyError.timeoutError => "timeout error"
  | PyError.unboundLocalError => "local variable delay referenced before assignment"
  | PyError.emailConnectionError m => m
  | PyError.webAutomationError m => m
  | PyError.databaseError m => m
  | PyError.configurationError m => m
  | PyError.otherError m => m

/-- Default value of the retry_exceptions tuple of handle_errors
(error_handler.py line 36): (RetryableError, ConnectionError, TimeoutError). -/
def default_retry_exceptions : PyError → Bool
  | PyError.retryableError => true
  | PyError.connectionError => true
  | PyError.timeoutError => true
  | _ => false

instance exceptDecEq {ε α : Type} [DecidableEq ε] [DecidableEq α] :
    DecidableEq (Except ε α) := fun x y =>
  match x, y with
  | Except.ok a, Except.ok b =>
    if h : a = b then isTrue (by rw [h]) else isFalse (by intro hh; cases hh; exact h rfl)
  | Except.ok _, Except.error _ => isFalse (by intro hh; cases hh)
  | Except.error _, Except.ok _ => isFalse (by intro hh; cases hh)
  | Except.error e, Except.error f =>
    if h : e = f then isTrue (by rw [h]) else isFalse (by intro hh; cases hh; exact h rfl)

/-- Observable trace of one call to a function wrapped by the handle_errors decorator:
how many times the wrapped body was invoked, which sleep durations were performed
between invocations (in order), and the final outcome. -/
structure RetryTrace (α : Type) where
  invocations : Nat
  sleeps : List Rat
  result : Except PyError α
deriving DecidableEq

/-- Loop body of the wrapper in handle_errors (error_handler.py lines 47-68).
The wrapped body is modelled as a function from the attempt index to its outcome;
remaining counts the attempts the loop would still allow after the current one, so
for attempt in range(max_retries + 1) starts with remaining = max_retries.
The statement delay *= 2 at line 59 assigns to delay inside wrapper without a
nonlocal declaration, which makes delay a local variable of wrapper; the retry
branch reads that local first in the warning message of lines 56-57 (and would
again in time.sleep(delay)) before any assignment to it ever ran, so instead of
sleeping and retrying the branch raises UnboundLocalError, which nothing in
wrapper catches.  Hence no loop iteration ever completes: on success the call
returns, on a non-retryable error it re-raises at once, on a retryable error with
budget left it raises UnboundLocalError with no sleep, and with no budget left
(attempt = max_retries, so only when max_retries = 0) it re-raises the original
error.  Only attempt 0 is ever reached and the body runs exactly once. -/
def retryGo {α : Type} (retryable : PyError → Bool) (op : Nat → Except PyError α)
    (attempt : Nat) (remaining : Nat) : RetryTrace α :=
  match op attempt with
  | Except.ok a => { invocations := 1, sleeps := [], result := Except.ok a }
  | Except.error e =>
    if retryable e then
      match remaining with
      | 0 => { invocations := 1, sleeps := [], result := Except.error e }
      | _ + 1 =>
        { invocations := 1, sleeps := []
          result := Except.error PyError.unboundLocalError }
    else { invocations := 1, sleeps := [], result := Except.error e }

/-- The handle_errors decorator of error_handler.py (lines 35-71): run the wrapped
body with a budget of max_retries retries and an initial backoff delay.  The delay
argument of the decorator is shadowed inside wrapper by the unbound local of the
same name (see retryGo), so it is never readable there and cannot influence the
behavior. -/
def handle_errors {α : Type} (retryable : PyError → Bool) (op : Nat → Except PyError α)
    (max_retries : Nat) (_delay : Rat) : RetryTrace α :=
  retryGo retryable op 0 max_retries

/-- Result of the last click attempt, driver_web.py line 33:
self.last_click_result = dict with keys success and observations. -/
structure ClickResult where
  success : Bool
  observations : String
deriving DecidableEq

/-- State of a WebAutomator instance (driver_web.py lines 24-35): whether
self.driver currently holds a live browser session, and the last click result.
The constructor sets driver = None and an empty click result. -/
structure WebAutomator where
  driver : Bool
  last_click_result : ClickResult
deriving DecidableEq

/-- WebAutomator.__init__ (driver_web.py lines 24-35): no browser session yet. -/
def WebAutomator.init : WebAutomator :=
  { driver := false, last_click_result := { success := false, observations := "" } }

/-- Outcome of the WebDriverWait locate-and-click step for one selector
(driver_web.py lines 163-170): either the element was found and clicked, or
some exception was raised with the given message. -/
inductive WaitOutcome : Type where
  | found : WaitOutcome
  | raised : String → WaitOutcome
deriving DecidableEq

/-- Keys of the selector_types dict in click_button (driver_web.py lines 148-154). -/
def selector_types : List String := ["xpath", "css", "id", "class", "tag"]

/-- WebAutomator.click_button (driver_web.py lines 131-179).  Every branch returns a
Bool and updates last_click_result; no exception escapes (the body catches Exception).
The wait outcome for this selector is supplied by the environment parameter w. -/
def click_button (a : WebAutomator) (_selector : String) (selector_type : String)
    (description : String) (w : WaitOutcome) : Bool × WebAutomator :=
  if a.driver = false then
    (false, { a with last_click_result := { success := false, observations := "No browser open" } })
  else if selector_types.contains selector_type = false then
    (false, { a with last_click_result :=
      { success := false, observations := "Invalid selector: " ++ selector_type } })
  else
    match w with
    | WaitOutcome.found =>
      (true, { a with last_click_result :=
        { success := true, observations := "Click successful on " ++ description } })
    | WaitOutcome.raised msg =>
      (false, { a with last_click_result :=
        { success := false, observations := "Click error: " ++ msg } })

/-- WebAutomator.get_last_click_result (driver_web.py lines 181-187). -/
def get_last_click_result (a : WebAutomator) : ClickResult :=
  a.last_click_result

/-- WebAutomator.close_browser (driver_web.py lines 189-197): quit the driver if
one is open and set it to None. -/
def close_browser (a : WebAutomator) : WebAutomator :=
  if a.driver then { a with driver := false } else a

/-- WebAutomator.open_link (driver_web.py lines 87-111): returns False when no
browser is open, otherwise the success of the navigation, supplied by the
environment; exceptions are caught and turned into False. -/
def open_link (a : WebAutomator) (navigationOk : Bool) : Bool :=
  if a.driver then navigationOk else false

/-- Whether one click_button call succeeds, as a function of the parts of the state
it actually reads: the driver flag, the selector type, and the wait outcome.
The mutable last_click_result never influences the returned Bool. -/
def click_ok (hasDriver : Bool) (selector_type : String) (w : WaitOutcome) : Bool :=
  hasDriver && selector_types.contains selector_type &&
    (match w with | WaitOutcome.found => true | WaitOutcome.raised _ => false)

/-- Loop of FullRPA._attempt_button_clicks (main.py lines 233-240) generalized to an
arbitrary ordered selector list: try click_button on each selector in order, return on
the first success.  Returns the final automator state, the list of selectors actually
attempted (in order) and the Bool result.  world gives the wait outcome per selector. -/
def attempt_button_chain (selTy : String) (world : String → WaitOutcome) :
    List String → WebAutomator → WebAutomator × List String × Bool
  | [], a => (a, [], false)
  | s :: rest, a =>
    let r := click_button a s selTy ("button with selector: " ++ s) (world s)
    if r.1 then (r.2, [s], true)
    else
      let next := attempt_button_chain selTy world rest r.2
      (next.1, s :: next.2.1, next.2.2)

/-- First entry of selectors_to_test (main.py line 226): action-word buttons. -/
def sel_action_buttons : String :=
  "//button[contains(text(), \x27Click\x27) or contains(text(), \x27Submit\x27) or contains(text(), \x27Login\x27) or contains(text(), \x27Sign in\x27) or contains(text(), \x27Continue\x27) or contains(text(), \x27Next\x27) or contains(text(), \x27Accept\x27) or contains(text(), \x27OK\x27)]"

/-- Second entry of selectors_to_test (main.py line 227): action-word links. -/
def sel_action_links : String :=
  "//a[contains(text(), \x27Click\x27) or contains(text(), \x27Submit\x27) or contains(text(), \x27Login\x27) or contains(text(), \x27Sign in\x27) or contains(text(), \x27Continue\x27) or contains(text(), \x27Next\x27) or contains(text(), \x27Accept\x27) or contains(text(), \x27OK\x27)]"

/-- Fourth entry of selectors_to_test (main.py line 229): hash or javascript anchors. -/
def sel_hash_anchors : String :=
  "//a[contains(@href, \x27#\x27) or contains(@href, \x27javascript\x27)]"

/-- The selectors_to_test list of FullRPA._attempt_button_clicks (main.py lines
225-231), with the environment-supplied BUTTON_SELECTOR appended last. -/
def selectors_to_test (button_selector : String) : List String :=
  [sel_action_buttons, sel_action_links, "//button", sel_hash_anchors, button_selector]

/-- FullRPA._attempt_button_clicks (main.py lines 222-244): run the fallback chain
over selectors_to_test; the body catches every exception (and click_button itself
never raises), so the method always returns a Bool. -/
def attempt_button_clicks (a : WebAutomator) (selector_type button_selector : String)
    (world : String → WaitOutcome) : WebAutomator × Bool :=
  let r := attempt_button_chain selector_type world (selectors_to_test button_selector) a
  (r.1, r.2.2)

/-- get_next_process_id (database.py lines 96-109): the clock draw rendered with
strftime as YYYYMMDD_HHMMSS and the random draw str(uuid.uuid4()) are explicit
inputs; the id is RPA_ followed by the timestamp, an underscore and the first
eight characters of the uuid string. -/
def get_next_process_id (timestamp : String) (uuid_str : String) : String :=
  "RPA_" ++ timestamp ++ "_" ++ String.mk (uuid_str.data.take 8)

/-- Body of save_record (database.py lines 73-94): the sqlite insert either succeeds
or raises, and any exception is re-raised as DatabaseError with a prefixed message.
storage maps the attempt index to the outcome of the underlying insert. -/
def save_record_body (storage : Nat → Except String Unit) (i : Nat) : Except PyError Unit :=
  match storage i with
  | Except.ok _ => Except.ok ()
  | Except.error m => Except.error (PyError.databaseError ("Failed to save record: " ++ m))

/-- save_record as decorated in database.py line 56: handle_errors with
max_retries = 3, delay = 1.0 and the default retry_exceptions tuple. -/
def save_record_trace (storage : Nat → Except String Unit) : RetryTrace Unit :=
  handle_errors default_retry_exceptions (save_record_body storage) 3 1

/-- FullRPA._register_email_result (main.py lines 246-263): call save_record and
swallow any exception, returning normally in both cases.  The returned Bool tells
whether the record was actually persisted; the method itself never raises. -/
def register_email_result_run (save : RetryTrace Unit) : Bool :=
  match save.result with
  | Except.ok _ => true
  | Except.error _ => false

/-- One fetched mail message, the fields of an imap_tools message that main.py reads. -/
structure Message where
  from_ : String
  subject : String
  text : String
deriving DecidableEq

/-- External-world behavior of one URL: the outcome of the requests.head probe
(either an exception or a status code), whether a browser navigation to it would
succeed, and the wait outcome for each selector tried on the resulting page. -/
structure UrlWorld where
  head : Except PyError Nat
  opens : Bool
  clicks : String → WaitOutcome

/-- One attempted OutcomeRecord, the argument tuple FullRPA._register_email_result
passes to save_record (main.py lines 249-259).  The wall-clock datetime column is a
clock read that no claim depends on and is omitted. -/
structure RecordAttempt where
  sender : String
  subject : String
  content : String
  url : String
  status : String
  detailed_error : String
  final_result : String
  process_id : String
deriving DecidableEq

/-- Build the record _register_email_result receives from a message and the
per-call fields, in source argument order. -/
def mkRecord (msg : Message) (content url status detailed final pid : String) :
    RecordAttempt :=
  { sender := msg.from_, subject := msg.subject, content := content, url := url
    status := status, detailed_error := detailed, final_result := final, process_id := pid }

/-- Result of one FullRPA._process_url call: the automator state after it, the
record attempts it made, the increments to total_success and total_errors, and
whether the automation driver was invoked (open_link or click_button called). -/
structure UrlStep where
  automator : Option WebAutomator
  records : List RecordAttempt
  succ : Nat
  errs : Nat
  driverInvoked : Bool
deriving DecidableEq

/-- FullRPA._process_url (main.py lines 186-220).  The body catches every exception,
so each branch registers exactly one record; the handle_errors decorator on it never
sees an exception and is transparent.  Branches in source order: the probe raises;
the probe returns a status of 400 or more (WebAutomationError raised, caught below);
the automator is set and open_link fails (WebAutomationError raised, caught below);
the automator is set and open_link succeeds (record Success, final result from the
click outcome); the automator is None (WebAutomationError raised, caught below). -/
def process_url (automator : Option WebAutomator) (w : UrlWorld)
    (selector_type button_selector : String) (msg : Message)
    (content process_id url : String) : UrlStep :=
  match w.head with
  | Except.error e =>
    { automator := automator
      records := [mkRecord msg content url "Error" (errStr e) "URL processing failed" process_id]
      succ := 0, errs := 1, driverInvoked := false }
  | Except.ok code =>
    if 400 ≤ code then
      { automator := automator
        records := [mkRecord msg content url "Error"
          ("URL returned status code " ++ toString code) "URL processing failed" process_id]
        succ := 0, errs := 1, driverInvoked := false }
    else
      match automator with
      | some a =>
        if open_link a w.opens = false then
          { automator := some a
            records := [mkRecord msg content url "Error" "Failed to open URL"
              "URL processing failed" process_id]
            succ := 0, errs := 1, driverInvoked := true }
        else
          let c := attempt_button_clicks a selector_type button_selector w.clicks
          { automator := some c.1
            records := [mkRecord msg content url "Success" ""
              (if c.2 then "Success" else "Partial success") process_id]
            succ := 1, errs := 0, driverInvoked := true }
      | none =>
        { automator := none
          records := [mkRecord msg content url "Error" "Web automator not initialized"
            "URL processing failed" process_id]
          succ := 0, errs := 1, driverInvoked := false }

/-- Accumulated result of processing one email: the automator state, the record
attempts and the counter increments. -/
structure EmailStep where
  automator : Option WebAutomator
  records : List RecordAttempt
  succ : Nat
  errs : Nat
deriving DecidableEq

/-- The per-link loop of FullRPA._process_single_email (main.py lines 171-173):
process each link in order with _process_url, which is total, so every link of the
list is reached regardless of earlier outcomes. -/
def process_links (selector_type button_selector : String) (env : String → UrlWorld)
    (msg : Message) (content process_id : String) :
    List String → Option WebAutomator → EmailStep
  | [], a => { automator := a, records := [], succ := 0, errs := 0 }
  | u :: rest, a =>
    let r := process_url a (env u) selector_type button_selector msg content process_id u
    let next := process_links selector_type button_selector env msg content process_id rest r.automator
    { automator := next.automator
      records := r.records ++ next.records
      succ := r.succ + next.succ
      errs := r.errs + next.errs }

/-- Content truncation of main.py line 155: text capped at 5000 characters with an
ellipsis appended when longer. -/
def truncate_content (t : String) : String :=
  if 5000 < t.data.length then String.mk (t.data.take 5000) ++ "..." else t

/-- FullRPA._process_single_email (main.py lines 152-184): extract links from the
message text; with no links register a single No-links record, otherwise run the
per-link loop.  Every callee of the try block is total in this model, so the except
branch (which would register one Error record and bump total_errors) is unreachable
and the method never raises. -/
def process_single_email (automator : Option WebAutomator)
    (selector_type button_selector : String) (env : String → UrlWorld)
    (extract : String → List String) (msg : Message) (process_id : String) : EmailStep :=
  let content := truncate_content msg.text
  match extract msg.text with
  | [] =>
    { automator := automator
      records := [mkRecord msg content "" "No links found" "" "No links" process_id]
      succ := 0, errs := 0 }
  | u :: rest =>
    process_links selector_type button_selector env msg content process_id (u :: rest) automator

/-- Substring test: Python needle in haystack over character lists. -/
def charsContains (needle : List Char) : List Char → Bool
  | [] => needle.isEmpty
  | c :: rest => List.isPrefixOf needle (c :: rest) || charsContains needle rest

/-- Python str.lower, modelled character-wise over the underlying list. -/
def pyLower (s : String) : String :=
  String.mk (s.data.map Char.toLower)

/-- The per-message guard of main.py line 142:
SENDER_FILTER and SENDER_FILTER.lower() in message.from_.lower().
An unset environment variable is None and an empty string is falsy, so the branch
requires a non-empty filter occurring (case-insensitively) in the sender. -/
def sender_matches (filter : Option String) (sender : String) : Bool :=
  match filter with
  | none => false
  | some f => if f = "" then false else charsContains (pyLower f).data (pyLower sender).data

/-- Result of the fetch-and-process loop of FullRPA._read_and_process_emails:
automator state, record attempts, counter increments, and how many messages
passed the sender filter and were processed. -/
structure LoopResult where
  automator : Option WebAutomator
  records : List RecordAttempt
  succ : Nat
  errs : Nat
  matched : Nat
deriving DecidableEq

/-- The message loop of FullRPA._read_and_process_emails (main.py lines 141-146):
for each fetched message that passes the sender guard, draw the next process id and
run _process_single_email.  pids is the stream of get_next_process_id draws, indexed
by the number of ids drawn so far; n is that count on entry. -/
def read_loop (filter : Option String) (selector_type button_selector : String)
    (env : String → UrlWorld) (extract : String → List String) (pids : Nat → String) :
    List Message → Option WebAutomator → Nat → LoopResult
  | [], a, _ => { automator := a, records := [], succ := 0, errs := 0, matched := 0 }
  | m :: rest, a, n =>
    if sender_matches filter m.from_ then
      let s := process_single_email a selector_type button_selector env extract m (pids n)
      let next := read_loop filter selector_type button_selector env extract pids rest s.automator (n + 1)
      { automator := next.automator
        records := s.records ++ next.records
        succ := s.succ + next.succ
        errs := s.errs + next.errs
        matched := next.matched + 1 }
    else
      read_loop filter selector_type button_selector env extract pids rest a n

/-- The record FullRPA._register_general_error writes (main.py lines 265-281). -/
def general_error_record (error_msg process_id : String) : RecordAttempt :=
  { sender := "SYSTEM", subject := "ERROR_GENERAL", content := "System error", url := ""
    status := "Error", detailed_error := "System error: " ++ error_msg
    final_result := "General failure", process_id := process_id }

/-- Observable result of one FullRPA.process_emails_automatically run. -/
structure RunResult where
  automator : Option WebAutomator
  records : List RecordAttempt
  total_processed : Nat
  total_success : Nat
  total_errors : Nat
  cleanupRan : Bool
  closeBrowserCalled : Bool
  summaryShown : Bool
  interruptPropagated : Bool
deriving DecidableEq

/-- FullRPA._cleanup_resources (main.py lines 283-290): if an automator exists call
its close_browser; every exception is caught.  Returns the resulting automator state
and whether close_browser was invoked. -/
def cleanup_resources (a : Option WebAutomator) : Option WebAutomator × Bool :=
  match a with
  | some x => (some (close_browser x), true)
  | none => (none, false)

/-- The finally block of process_emails_automatically (main.py lines 93-96):
_cleanup_resources then _show_summary always run, whatever the try block did;
afterwards a pending KeyboardInterrupt, if any, propagates.  The counters
total_processed, total_success, total_errors are the FullRPA fields at run end:
__init__ (main.py lines 57-59) sets all three to 0, and no statement in main.py
ever increments total_processed. -/
def finish_run (a : Option WebAutomator) (records : List RecordAttempt)
    (succ errs : Nat) (interrupt : Bool) : RunResult :=
  let c := cleanup_resources a
  { automator := c.1, records := records
    total_processed := 0, total_success := succ, total_errors := errs
    cleanupRan := true, closeBrowserCalled := c.2, summaryShown := true
    interruptPropagated := interrupt }

/-- FullRPA.process_emails_automatically (main.py lines 70-96).  Inputs model the
world: preflightOk is the outcome of _perform_preflight_checks; initResult the
outcome of _initialize_components (validate_credentials plus the WebAutomator
constructor, which never opens a browser - main.py never calls configure_browser);
interrupted injects an external KeyboardInterrupt during the processing loop, which
except Exception does not catch but the finally block still precedes; mailboxOk
models the mailbox connection, whose failure _read_and_process_emails re-raises as
EmailConnectionError (not retryable for its decorator, so it propagates at once and
is caught by the outer except, which writes one general-error record). -/
def process_emails_automatically (preflightOk : Bool) (initResult : Except PyError Unit)
    (interrupted : Bool) (mailboxOk : Bool) (filter : Option String)
    (selector_type button_selector : String) (env : String → UrlWorld)
    (extract : String → List String) (pids : Nat → String)
    (messages : List Message) : RunResult :=
  if preflightOk = false then
    finish_run none [] 0 0 false
  else
    match initResult with
    | Except.error e =>
      finish_run none [general_error_record (errStr e) (pids 0)] 0 0 false
    | Except.ok _ =>
      let a0 : Option WebAutomator := some WebAutomator.init
      if interrupted then
        finish_run a0 [] 0 0 true
      else if mailboxOk = false then
        finish_run a0
          [general_error_record ("Failed to read emails: connection error") (pids 0)] 0 0 false
      else
        let loop := read_loop filter selector_type button_selector env extract pids messages a0 0
        finish_run loop.automator loop.records loop.succ loop.errs false

/-
Theorems.  Helper lemmas first, then one theorem per claim (with witnesses and
counterexamples where the claim status requires them).
-/

theorem click_button_fst (a : WebAutomator) (s ty d : String) (w : WaitOutcome) :
    (click_button a s ty d w).1 = click_ok a.driver ty w := by
  unfold click_button click_ok
  cases h : a.driver <;> cases hc : selector_types.contains ty <;> cases w <;> simp [h, hc]

theorem click_button_driver (a : WebAutomator) (s ty d : String) (w : WaitOutcome) :
    (click_button a s ty d w).2.driver = a.driver := by
  unfold click_button
  cases h : a.driver <;> cases hc : selector_types.contains ty <;> cases w <;> simp [h, hc]

/-- C2: the claim fails on the code, which contradicts its own docstring
(automatic retry logic with a delay between retries) and its Retrying-in-delay
warning message: delay *= 2 in wrapper (error_handler.py line 59) lacks a nonlocal
declaration, so delay is an unbound local when the retry branch first reads it,
and the branch raises UnboundLocalError instead of sleeping and retrying.  At the
concrete failing input - handle_errors(max_retries = 3, delay = 2.0) around an
operation that always raises the retryable ConnectionError - the operation is
invoked exactly once, not 3 + 1 times, no backoff sleep is performed, and what
propagates is the UnboundLocalError, not the original error tagged as exhausted. -/
theorem c2_retry_never_happens :
    (handle_errors default_retry_exceptions
      (fun _ => (Except.error PyError.connectionError : Except PyError Unit)) 3 2).invocations
      = 1 ∧
    (handle_errors default_retry_exceptions
      (fun _ => (Except.error PyError.connectionError : Except PyError Unit)) 3 2).invocations
      ≠ 3 + 1 ∧
    (handle_errors default_retry_exceptions
      (fun _ => (Except.error PyError.connectionError : Except PyError Unit)) 3 2).sleeps
      = [] ∧
    (handle_errors default_retry_exceptions
      (fun _ => (Except.error PyError.connectionError : Except PyError Unit)) 3 2).result
      = Except.error PyError.unboundLocalError ∧
    (handle_errors default_retry_exceptions
      (fun _ => (Except.error PyError.connectionError : Except PyError Unit)) 3 2).result
      ≠ Except.error PyError.connectionError := by
  refine ⟨rfl, by decide, rfl, rfl, by decide⟩

/-- C5: if the k-th strategy of an ordered selector list is the first whose
activation succeeds (index k zero-based here, so the claim counts k + 1 as the
k-th strategy one-based), the fallback chain attempts exactly the first k + 1
strategies in list order, attempts none after it, and returns the success. -/
theorem c5_fallback_short_circuit (selTy : String) (world : String → WaitOutcome)
    (l : List String) (a : WebAutomator) (k : Nat) (hk : k < l.length)
    (hfail : ∀ s ∈ l.take k, click_ok a.driver selTy (world s) = false)
    (hsucc : click_ok a.driver selTy (world (l.get ⟨k, hk⟩)) = true) :
    (attempt_button_chain selTy world l a).2.1 = l.take (k + 1) ∧
    (attempt_button_chain selTy world l a).2.2 = true := by
  induction l generalizing a k with
  | nil => exact absurd hk (Nat.not_lt_zero k)
  | cons s rest ih =>
    cases k with
    | zero =>
      have h1 : (click_button a s selTy ("button with selector: " ++ s) (world s)).1 = true := by
        rw [click_button_fst]
        exact hsucc
      unfold attempt_button_chain
      simp [h1]
    | succ k0 =>
      have h0 : click_ok a.driver selTy (world s) = false := by
        apply hfail
        simp [List.take_succ_cons]
      have h1 : (click_button a s selTy ("button with selector: " ++ s) (world s)).1 = false := by
        rw [click_button_fst]
        exact h0
      have hdrv := click_button_driver a s selTy ("button with selector: " ++ s) (world s)
      have hk0 : k0 < rest.length := Nat.lt_of_succ_lt_succ hk
      have ihh := ih (click_button a s selTy ("button with selector: " ++ s) (world s)).2 k0 hk0
        (by
          intro t ht
          rw [hdrv]
          exact hfail t (by simp [List.take_succ_cons, ht]))
        (by
          rw [hdrv]
          exact hsucc)
      unfold attempt_button_chain
      simp only [h1, if_false, Bool.false_eq_true]
      refine ⟨?_, ihh.2⟩
      rw [List.take_succ_cons]
      simp [ihh.1]

theorem c5_fallback_short_circuit_witness :
    (1 < (["//button", "//a", "//input"] : List String).length) ∧
    (attempt_button_chain "xpath"
      (fun s => if s = "//a" then WaitOutcome.found else WaitOutcome.raised "no element")
      ["//button", "//a", "//input"]
      { driver := true, last_click_result := { success := false, observations := "" } }).2.1
      = ["//button", "//a"] ∧
    (attempt_button_chain "xpath"
      (fun s => if s = "//a" then WaitOutcome.found else WaitOutcome.raised "no element")
      ["//button", "//a", "//input"]
      { driver := true, last_click_result := { success := false, observations := "" } }).2.2
      = true := by
  refine ⟨by decide, ?_⟩
  have h := c5_fallback_short_circuit "xpath"
    (fun s => if s = "//a" then WaitOutcome.found else WaitOutcome.raised "no element")
    ["//button", "//a", "//input"]
    { driver := true, last_click_result := { success := false, observations := "" } }
    1 (by decide) (by decide) (by decide)
  exact ⟨h.1, h.2⟩

theorem string_append_ne_empty (s t : String) (hs : s.data ≠ []) : s ++ t ≠ "" := by
  intro h
  have hd : s.data ++ t.data = ([] : List Char) := congrArg String.data h
  exact hs (List.append_eq_nil.mp hd).1

/-- C10: click_button is total at its boundary (modelled by its plain function type:
every driver state, selector, selector type and wait outcome yields a Bool and a new
state, never an exception), and whenever it returns false it has set
last_click_result to a record with success = false and a non-empty observations
string, which get_last_click_result then returns. -/
theorem c10_click_button_total (a : WebAutomator) (sel ty desc : String) (w : WaitOutcome)
    (hfail : (click_button a sel ty desc w).1 = false) :
    (click_button a sel ty desc w).2.last_click_result.success = false ∧
    (click_button a sel ty desc w).2.last_click_result.observations ≠ "" ∧
    get_last_click_result (click_button a sel ty desc w).2
      = (click_button a sel ty desc w).2.last_click_result := by
  unfold click_button at hfail ⊢
  by_cases hdv : a.driver = false
  · rw [if_pos hdv] at hfail ⊢
    exact ⟨rfl, show ("No browser open" : String) ≠ "" by decide, rfl⟩
  · by_cases hct : selector_types.contains ty = false
    · rw [if_neg hdv, if_pos hct] at hfail ⊢
      exact ⟨rfl, string_append_ne_empty "Invalid selector: " ty (by decide), rfl⟩
    · rw [if_neg hdv, if_neg hct] at hfail ⊢
      cases w with
      | found => simp at hfail
      | raised msg =>
        exact ⟨rfl, string_append_ne_empty "Click error: " msg (by decide), rfl⟩

theorem c10_click_button_total_witness :
    (click_button WebAutomator.init "//button" "xpath" "d" WaitOutcome.found).1 = false ∧
    ((click_button WebAutomator.init "//button" "xpath" "d" WaitOutcome.found).2.last_click_result.success = false ∧
    (click_button WebAutomator.init "//button" "xpath" "d" WaitOutcome.found).2.last_click_result.observations ≠ "" ∧
    get_last_click_result (click_button WebAutomator.init "//button" "xpath" "d" WaitOutcome.found).2
      = (click_button WebAutomator.init "//button" "xpath" "d" WaitOutcome.found).2.last_click_result) :=
  ⟨rfl, c10_click_button_total WebAutomator.init "//button" "xpath" "d" WaitOutcome.found rfl⟩

theorem process_url_records (automator : Option WebAutomator) (w : UrlWorld)
    (selTy bsel : String) (msg : Message) (content pid url : String) :
    (process_url automator w selTy bsel msg content pid url).records.map (fun r => r.url)
      = [url] := by
  unfold process_url
  cases w.head with
  | error e => simp [mkRecord]
  | ok code =>
    by_cases h : 400 ≤ code
    · simp [h, mkRecord]
    · cases automator with
      | none => simp [h, mkRecord]
      | some a =>
        by_cases ho : open_link a w.opens = false <;> simp [h, ho, mkRecord]

theorem process_links_records (selTy bsel : String) (env : String → UrlWorld)
    (msg : Message) (content pid : String) :
    ∀ (l : List String) (a : Option WebAutomator),
      (process_links selTy bsel env msg content pid l a).records.map (fun r => r.url) = l := by
  intro l
  induction l with
  | nil => intro a; rfl
  | cons u rest ih =>
    intro a
    unfold process_links
    simp [List.map_append, process_url_records, ih]

/-- C3: for every processing unit with a non-empty link list, every control-flow
branch of per-link processing attempts to persist exactly one OutcomeRecord per
link, in link order, and no failure on one link (any probe outcome, open failure or
activation failure in the environment) prevents the remaining links from being
processed: the registered records are exactly one per extracted link. -/
theorem c3_one_record_per_link (automator : Option WebAutomator) (selTy bsel : String)
    (env : String → UrlWorld) (extract : String → List String) (msg : Message)
    (pid : String) (hlinks : extract msg.text ≠ []) :
    (process_single_email automator selTy bsel env extract msg pid).records.map
      (fun r => r.url) = extract msg.text := by
  obtain ⟨u, rest, hur⟩ := List.exists_cons_of_ne_nil hlinks
  unfold process_single_email
  rw [hur]
  exact process_links_records selTy bsel env msg (truncate_content msg.text) pid (u :: rest) automator

theorem c3_one_record_per_link_witness :
    ((fun t => [t, t ++ "/2"]) "http://a.test" ≠ ([] : List String)) ∧
    (process_single_email none "xpath" "//button"
      (fun _ => { head := Except.ok 404, opens := false, clicks := fun _ => WaitOutcome.raised "boom" })
      (fun t => [t, t ++ "/2"])
      { from_ := "boss@example.com", subject := "hi", text := "http://a.test" }
      "PID0").records.map (fun r => r.url) = ["http://a.test", "http://a.test/2"] := by
  constructor
  · decide
  · rw [c3_one_record_per_link none "xpath" "//button"
      (fun _ => { head := Except.ok 404, opens := false, clicks := fun _ => WaitOutcome.raised "boom" })
      (fun t => [t, t ++ "/2"])
      { from_ := "boss@example.com", subject := "hi", text := "http://a.test" }
      "PID0" (by decide)]
    decide

theorem c6_invalid_url_status_cex :
    (process_url (some { driver := true, last_click_result := { success := false, observations := "" } })
      { head := Except.ok 404, opens := true, clicks := fun _ => WaitOutcome.found }
      "xpath" "//button" { from_ := "s", subject := "t", text := "b" } "b" "PID"
      "https://bad.test").records.map (fun r => r.status) = ["Error"] ∧
    (process_url (some { driver := true, last_click_result := { success := false, observations := "" } })
      { head := Except.ok 404, opens := true, clicks := fun _ => WaitOutcome.found }
      "xpath" "//button" { from_ := "s", subject := "t", text := "b" } "b" "PID"
      "https://bad.test").records.map (fun r => r.status) ≠ ["InvalidURL"] ∧
    (process_url (some { driver := true, last_click_result := { success := false, observations := "" } })
      { head := Except.ok 404, opens := true, clicks := fun _ => WaitOutcome.found }
      "xpath" "//button" { from_ := "s", subject := "t", text := "b" } "b" "PID"
      "https://bad.test").driverInvoked = false := by
  refine ⟨rfl, ?_, rfl⟩
  decide

/-- C6 (amended): for every link whose reachability probe returns a failing status
(400 or more), exactly one record is registered with status Error (not InvalidURL),
whose error detail names the status code, and the automation driver is never invoked
for that link (no page open, no activation attempt, automator state untouched). -/
theorem c6_failing_probe_no_driver (automator : Option WebAutomator) (w : UrlWorld)
    (selTy bsel : String) (msg : Message) (content pid url : String) (code : Nat)
    (hhead : w.head = Except.ok code) (hcode : 400 ≤ code) :
    (process_url automator w selTy bsel msg content pid url).records
      = [mkRecord msg content url "Error" ("URL returned status code " ++ toString code)
          "URL processing failed" pid] ∧
    (process_url automator w selTy bsel msg content pid url).driverInvoked = false ∧
    (process_url automator w selTy bsel msg content pid url).automator = automator := by
  unfold process_url
  rw [hhead]
  simp [hcode]

theorem c6_failing_probe_no_driver_witness :
    (({ head := Except.ok 503, opens := true, clicks := fun _ => WaitOutcome.found } : UrlWorld).head
      = Except.ok 503) ∧
    (400 ≤ 503) ∧
    (process_url (some WebAutomator.init)
      { head := Except.ok 503, opens := true, clicks := fun _ => WaitOutcome.found }
      "xpath" "//button" { from_ := "s", subject := "t", text := "b" } "b" "PID"
      "https://down.test").records
      = [mkRecord { from_ := "s", subject := "t", text := "b" } "b" "https://down.test"
          "Error" "URL returned status code 503" "URL processing failed" "PID"] ∧
    (process_url (some WebAutomator.init)
      { head := Except.ok 503, opens := true, clicks := fun _ => WaitOutcome.found }
      "xpath" "//button" { from_ := "s", subject := "t", text := "b" } "b" "PID"
      "https://down.test").driverInvoked = false := by
  have h := c6_failing_probe_no_driver (some WebAutomator.init)
    { head := Except.ok 503, opens := true, clicks := fun _ => WaitOutcome.found }
    "xpath" "//button" { from_ := "s", subject := "t", text := "b" } "b" "PID"
    "https://down.test" 503 rfl (by decide)
  exact ⟨rfl, by decide, h.1, h.2.1⟩

theorem process_url_isSome (automator : Option WebAutomator) (w : UrlWorld)
    (selTy bsel : String) (msg : Message) (content pid url : String) :
    (process_url automator w selTy bsel msg content pid url).automator.isSome
      = automator.isSome := by
  unfold process_url
  cases w.head with
  | error e => rfl
  | ok code =>
    by_cases h : 400 ≤ code
    · simp [h]
    · cases automator with
      | none => simp [h]
      | some a =>
        by_cases ho : open_link a w.opens = false <;> simp [h, ho]

theorem process_links_isSome (selTy bsel : String) (env : String → UrlWorld)
    (msg : Message) (content pid : String) :
    ∀ (l : List String) (a : Option WebAutomator),
      (process_links selTy bsel env msg content pid l a).automator.isSome = a.isSome := by
  intro l
  induction l with
  | nil => intro a; rfl
  | cons u rest ih =>
    intro a
    unfold process_links
    rw [ih, process_url_isSome]

theorem process_single_email_isSome (automator : Option WebAutomator)
    (selTy bsel : String) (env : String → UrlWorld) (extract : String → List String)
    (msg : Message) (pid : String) :
    (process_single_email automator selTy bsel env extract msg pid).automator.isSome
      = automator.isSome := by
  unfold process_single_email
  cases extract msg.text with
  | nil => rfl
  | cons u rest => exact process_links_isSome selTy bsel env msg (truncate_content msg.text) pid (u :: rest) automator

theorem read_loop_isSome (filter : Option String) (selTy bsel : String)
    (env : String → UrlWorld) (extract : String → List String) (pids : Nat → String) :
    ∀ (messages : List Message) (a : Option WebAutomator) (n : Nat),
      (read_loop filter selTy bsel env extract pids messages a n).automator.isSome
        = a.isSome := by
  intro messages
  induction messages with
  | nil => intro a n; rfl
  | cons m rest ih =>
    intro a n
    unfold read_loop
    by_cases hm : sender_matches filter m.from_
    · simp only [hm, if_true]
      rw [ih, process_single_email_isSome]
    · simp only [hm, if_false]
      exact ih a n

theorem cleanup_resources_called (a : Option WebAutomator) :
    (cleanup_resources a).2 = a.isSome := by
  cases a <;> rfl

/-- C7: on every exit path of a run (normal completion, preflight failure, failed
component setup, a mailbox error surfacing as an unrecovered exception, or an
external interrupt during the loop), the cleanup step of the finally block runs; and
whenever the automation driver object was created, its close_browser is invoked
before the run ends. -/
theorem c7_cleanup_always_runs (preflightOk : Bool) (initResult : Except PyError Unit)
    (interrupted mailboxOk : Bool) (filter : Option String) (selTy bsel : String)
    (env : String → UrlWorld) (extract : String → List String) (pids : Nat → String)
    (messages : List Message) :
    (process_emails_automatically preflightOk initResult interrupted mailboxOk filter
      selTy bsel env extract pids messages).cleanupRan = true ∧
    (preflightOk = true → initResult = Except.ok () →
      (process_emails_automatically preflightOk initResult interrupted mailboxOk filter
        selTy bsel env extract pids messages).closeBrowserCalled = true) := by
  unfold process_emails_automatically
  cases preflightOk with
  | false => exact ⟨rfl, fun h _ => absurd h (by decide)⟩
  | true =>
    cases initResult with
    | error e => exact ⟨rfl, fun _ h => by cases h⟩
    | ok u =>
      cases u
      cases interrupted with
      | true => exact ⟨rfl, fun _ _ => rfl⟩
      | false =>
        cases mailboxOk with
        | false => exact ⟨rfl, fun _ _ => rfl⟩
        | true =>
          refine ⟨rfl, fun _ _ => ?_⟩
          show (cleanup_resources (read_loop filter selTy bsel env extract pids messages
            (some WebAutomator.init) 0).automator).2 = true
          rw [cleanup_resources_called, read_loop_isSome]
          rfl

theorem c7_cleanup_always_runs_witness :
    (true = true) ∧ ((Except.ok () : Except PyError Unit) = Except.ok ()) ∧
    (process_emails_automatically true (Except.ok ()) true true none "xpath" "//button"
      (fun _ => { head := Except.ok 200, opens := true, clicks := fun _ => WaitOutcome.found })
      (fun t => [t]) (fun _ => "PID") []).cleanupRan = true ∧
    (process_emails_automatically true (Except.ok ()) true true none "xpath" "//button"
      (fun _ => { head := Except.ok 200, opens := true, clicks := fun _ => WaitOutcome.found })
      (fun t => [t]) (fun _ => "PID") []).closeBrowserCalled = true := by
  have h := c7_cleanup_always_runs true (Except.ok ()) true true none "xpath" "//button"
    (fun _ => { head := Except.ok 200, opens := true, clicks := fun _ => WaitOutcome.found })
    (fun t => [t]) (fun _ => "PID") []
  exact ⟨rfl, rfl, h.1, h.2 rfl rfl⟩

/-- C1: the run counters do not satisfy total_processed = total_success +
total_errors.  FullRPA.__init__ sets total_processed to 0 and no statement in
main.py ever increments it, while the per-link branches do increment total_success
and total_errors; this concrete run (one matching message with one reachable link)
ends with total_processed = 0 and total_errors = 1, violating the claimed
partition property. -/
theorem c1_counters_not_partitioned :
    (process_emails_automatically true (Except.ok ()) false true (some "boss")
      "xpath" "//button"
      (fun _ => { head := Except.ok 200, opens := true, clicks := fun _ => WaitOutcome.found })
      (fun t => [t]) (fun n => "PID" ++ toString n)
      [{ from_ := "boss@example.com", subject := "hi", text := "http://a.test/x" }]).total_processed = 0 ∧
    (process_emails_automatically true (Except.ok ()) false true (some "boss")
      "xpath" "//button"
      (fun _ => { head := Except.ok 200, opens := true, clicks := fun _ => WaitOutcome.found })
      (fun t => [t]) (fun n => "PID" ++ toString n)
      [{ from_ := "boss@example.com", subject := "hi", text := "http://a.test/x" }]).total_success = 0 ∧
    (process_emails_automatically true (Except.ok ()) false true (some "boss")
      "xpath" "//button"
      (fun _ => { head := Except.ok 200, opens := true, clicks := fun _ => WaitOutcome.found })
      (fun t => [t]) (fun n => "PID" ++ toString n)
      [{ from_ := "boss@example.com", subject := "hi", text := "http://a.test/x" }]).total_errors = 1 ∧
    (process_emails_automatically true (Except.ok ()) false true (some "boss")
      "xpath" "//button"
      (fun _ => { head := Except.ok 200, opens := true, clicks := fun _ => WaitOutcome.found })
      (fun t => [t]) (fun n => "PID" ++ toString n)
      [{ from_ := "boss@example.com", subject := "hi", text := "http://a.test/x" }]).total_processed ≠
    (process_emails_automatically true (Except.ok ()) false true (some "boss")
      "xpath" "//button"
      (fun _ => { head := Except.ok 200, opens := true, clicks := fun _ => WaitOutcome.found })
      (fun t => [t]) (fun n => "PID" ++ toString n)
      [{ from_ := "boss@example.com", subject := "hi", text := "http://a.test/x" }]).total_success +
    (process_emails_automatically true (Except.ok ()) false true (some "boss")
      "xpath" "//button"
      (fun _ => { head := Except.ok 200, opens := true, clicks := fun _ => WaitOutcome.found })
      (fun t => [t]) (fun n => "PID" ++ toString n)
      [{ from_ := "boss@example.com", subject := "hi", text := "http://a.test/x" }]).total_errors := by
  refine ⟨rfl, rfl, ?_, ?_⟩ <;> decide

theorem c4_storage_not_retried_cex :
    (save_record_trace (fun _ => Except.error "disk full")).invocations = 1 ∧
    (save_record_trace (fun _ => Except.error "disk full")).invocations ≠ 4 ∧
    (save_record_trace (fun _ => Except.error "disk full")).sleeps = [] := by
  refine ⟨rfl, by decide, rfl⟩

/-- C4 (amended): a failing save_record is not re-invoked under the retry policy:
the decorator keeps its default retryable kinds (RetryableError, ConnectionError,
TimeoutError), and save_record re-raises every storage failure as DatabaseError,
which is not among them, so the body runs exactly once, no backoff sleep happens,
and the DatabaseError propagates; _register_email_result then catches it, merely
logs, and returns normally, so the per-link loop continues. -/
theorem c4_storage_error_single_attempt (m : String) :
    (save_record_trace (fun _ => Except.error m)).invocations = 1 ∧
    (save_record_trace (fun _ => Except.error m)).sleeps = [] ∧
    (save_record_trace (fun _ => Except.error m)).result
      = Except.error (PyError.databaseError ("Failed to save record: " ++ m)) ∧
    register_email_result_run (save_record_trace (fun _ => Except.error m)) = false :=
  ⟨rfl, rfl, rfl, rfl⟩

theorem pid_data (ts u : String) :
    (get_next_process_id ts u).data
      = "RPA_".data ++ ts.data ++ "_".data ++ u.data.take 8 := rfl

theorem c8_pid_collision_cex :
    get_next_process_id "20260101_120000" "aaaaaaaa-1111-2222" =
      get_next_process_id "20260101_120000" "aaaaaaaa-3333-4444" ∧
    ("aaaaaaaa-1111-2222" : String) ≠ "aaaaaaaa-3333-4444" := by
  refine ⟨rfl, by decide⟩

theorem c8_pid_injective (ts1 ts2 u1 u2 : String) (hlen : ts1.length = ts2.length)
    (h : get_next_process_id ts1 u1 = get_next_process_id ts2 u2) :
    ts1 = ts2 ∧ u1.data.take 8 = u2.data.take 8 := by
  have hd : "RPA_".data ++ ts1.data ++ "_".data ++ u1.data.take 8
      = "RPA_".data ++ ts2.data ++ "_".data ++ u2.data.take 8 := by
    rw [← pid_data, ← pid_data, h]
  have hd2 : "RPA_".data ++ (ts1.data ++ ("_".data ++ u1.data.take 8))
      = "RPA_".data ++ (ts2.data ++ ("_".data ++ u2.data.take 8)) := by
    simpa [List.append_assoc] using hd
  have h3 := List.append_cancel_left hd2
  have h4 := List.append_inj h3 hlen
  refine ⟨?_, List.append_cancel_left h4.2⟩
  cases ts1 with
  | mk d1 =>
    cases ts2 with
    | mk d2 => exact congrArg String.mk h4.1

/-- C8 (amended): generated ProcessIDs are pairwise distinct exactly as far as the
drawn (timestamp, first-eight-uuid-characters) pairs are: for any sequence of draws
whose strftime timestamps (always 15 characters) and 8-character uuid prefixes are
pairwise distinct as pairs, the resulting ids are pairwise distinct.  The code does
not guarantee distinctness for arbitrary draws: two generations within the same
second whose uuid strings share their first eight characters collide. -/
theorem c8_pid_distinct_draws (draws : List (String × String))
    (hts : ∀ p ∈ draws, (p.1 : String).length = 15)
    (hkeys : (draws.map (fun p => (p.1, p.2.data.take 8))).Pairwise (fun a b => a ≠ b)) :
    (draws.map (fun p => get_next_process_id p.1 p.2)).Pairwise (fun a b => a ≠ b) := by
  rw [List.pairwise_map] at hkeys ⊢
  refine List.Pairwise.imp_of_mem ?_ hkeys
  intro p q hp hq hne hgen
  apply hne
  have hinj := c8_pid_injective p.1 q.1 p.2 q.2 (by rw [hts p hp, hts q hq]) hgen
  rw [Prod.mk.injEq]
  exact hinj

theorem c8_pid_distinct_draws_witness :
    (∀ p ∈ ([("20260101_120000", "aaaa0000-1111"), ("20260101_120001", "aaaa0000-1111"),
      ("20260101_120001", "bbbb1111-2222")] : List (String × String)), p.1.length = 15) ∧
    (([("20260101_120000", "aaaa0000-1111"), ("20260101_120001", "aaaa0000-1111"),
      ("20260101_120001", "bbbb1111-2222")] : List (String × String)).map
        (fun p => (p.1, p.2.data.take 8))).Pairwise (fun a b => a ≠ b) ∧
    (([("20260101_120000", "aaaa0000-1111"), ("20260101_120001", "aaaa0000-1111"),
      ("20260101_120001", "bbbb1111-2222")] : List (String × String)).map
        (fun p => get_next_process_id p.1 p.2)).Pairwise (fun a b => a ≠ b) := by
  refine ⟨by decide, by decide, ?_⟩
  exact c8_pid_distinct_draws
    [("20260101_120000", "aaaa0000-1111"), ("20260101_120001", "aaaa0000-1111"),
      ("20260101_120001", "bbbb1111-2222")] (by decide) (by decide)

/-- C9: when the sender-filter configuration value is unset (None) or empty, the
fetch loop processes zero messages and registers zero OutcomeRecords, whatever
messages the mailbox returns: the per-message branch requires a non-empty filter
whose lowercased value occurs in the lowercased sender. -/
theorem c9_empty_filter_no_processing (filter : Option String)
    (h : filter = none ∨ filter = some "") (selTy bsel : String)
    (env : String → UrlWorld) (extract : String → List String) (pids : Nat → String)
    (messages : List Message) (a : Option WebAutomator) (n : Nat) :
    read_loop filter selTy bsel env extract pids messages a n
      = { automator := a, records := [], succ := 0, errs := 0, matched := 0 } := by
  have hm : ∀ s, sender_matches filter s = false := by
    intro s
    rcases h with h | h <;> rw [h] <;> simp [sender_matches]
  induction messages with
  | nil => rfl
  | cons m rest ih =>
    unfold read_loop
    rw [hm m.from_]
    simpa using ih

theorem c9_empty_filter_no_processing_witness :
    ((none : Option String) = none ∨ (none : Option String) = some "") ∧
    read_loop none "xpath" "//button"
      (fun _ => { head := Except.ok 200, opens := true, clicks := fun _ => WaitOutcome.found })
      (fun t => [t]) (fun _ => "PID")
      [{ from_ := "anyone@example.com", subject := "s", text := "http://a.test" }]
      (some WebAutomator.init) 0
      = { automator := some WebAutomator.init, records := [], succ := 0, errs := 0, matched := 0 } :=
  ⟨Or.inl rfl, c9_empty_filter_no_processing none (Or.inl rfl) "xpath" "//button"
    (fun _ => { head := Except.ok 200, opens := true, clicks := fun _ => WaitOutcome.found })
    (fun t => [t]) (fun _ => "PID")
    [{ from_ := "anyone@example.com", subject := "s", text := "http://a.test" }]
    (some WebAutomator.init) 0⟩

end RpaNetflix
